import Mathlib

/-!
Shallow embedding of `src/login_example.cpp` (pynamuh repository).

The program loads the vendor library `wmca.dll`, resolves seven entry
points, and runs a fixed call sequence (load, set server, set port,
connect, poll connection, sleep, disconnect, cleanup).  The vendor
library is opaque, so it is modelled by an oracle (`Vendor`) giving the
outcome of the library load, of each symbol resolution, and of each call
to a vendor entry point (indexed by call count where an entry point may
be called more than once in a run).  Every externally visible action of
the program is recorded in a trace of `VEvent`s.
-/

/-- Externally visible events of a run: console prompts, the dynamic
library calls (`LoadLibraryA`, `GetProcAddress`, `FreeLibrary`), the
seven vendor entry points, and `Sleep`. -/
inductive VEvent where
  | prompt (msg : String)
  | loadLibrary (path : String)
  | getProcAddress (name : String)
  | freeLibrary
  | wmcaLoad
  | wmcaFree
  | wmcaSetServer (server : String)
  | wmcaSetPort (port : Int)
  | wmcaIsConnected
  | wmcaConnect (cMediaType cUserType : Char) (szID szPassword szSignPassword : String)
  | wmcaDisconnect
  | sleep (ms : Nat)
deriving DecidableEq

/-- Oracle for the opaque vendor side: whether `LoadLibraryA "wmca.dll"`
succeeds, whether each of the seven `GetProcAddress` lookups succeeds,
and the boolean result of each vendor call.  `wmcaDisconnect` and
`wmcaFree` can be reached several times in one run, so their results are
indexed by the number of earlier calls. -/
structure Vendor where
  libLoads : Bool
  symLoad : Bool
  symFree : Bool
  symSetServer : Bool
  symSetPort : Bool
  symIsConnected : Bool
  symConnect : Bool
  symDisconnect : Bool
  retLoad : Bool
  retSetServer : Bool
  retSetPort : Bool
  retIsConnected : Bool
  retConnect : Bool
  retDisconnect : Nat → Bool
  retFree : Nat → Bool

/-- The fields of class `WMCAClient`: the DLL handle and the seven
function pointers are modelled by their nullness (`true` = non-null),
plus the `m_bConnected` flag. -/
structure WMCAClient where
  m_hDll : Bool
  m_pLoad : Bool
  m_pFree : Bool
  m_pSetServer : Bool
  m_pSetPort : Bool
  m_pIsConnected : Bool
  m_pConnect : Bool
  m_pDisconnect : Bool
  m_bConnected : Bool
deriving DecidableEq

/-- Program state threaded through the methods: the client object, the
number of earlier `wmcaDisconnect` and `wmcaFree` calls, and the event
trace. -/
structure World where
  client : WMCAClient
  nDisc : Nat
  nFree : Nat
  trace : List VEvent

namespace WMCAClient

/-- The `WMCAClient` constructor: null handle, null function pointers,
`m_bConnected = false`. -/
def init : WMCAClient :=
  { m_hDll := false, m_pLoad := false, m_pFree := false, m_pSetServer := false,
    m_pSetPort := false, m_pIsConnected := false, m_pConnect := false,
    m_pDisconnect := false, m_bConnected := false }

/-- Method `WMCAClient::LoadDLL`: `LoadLibraryA(szDLLPath)`, then the seven
`GetProcAddress` lookups; if any pointer is null the library is freed,
the handle nulled and `false` returned.  The function pointers keep the
values just assigned even on that failure path, as in the source. -/
def LoadDLL (v : Vendor) (szDLLPath : String) (w : World) : Bool × World :=
  let w := { w with trace := w.trace ++ [.loadLibrary szDLLPath],
                    client := { w.client with m_hDll := v.libLoads } }
  if !w.client.m_hDll then
    (false, w)
  else
    let c := { w.client with
      m_pLoad := v.symLoad, m_pFree := v.symFree, m_pSetServer := v.symSetServer,
      m_pSetPort := v.symSetPort, m_pIsConnected := v.symIsConnected,
      m_pConnect := v.symConnect, m_pDisconnect := v.symDisconnect }
    let w := { w with client := c,
                      trace := w.trace ++ [.getProcAddress "wmcaLoad",
                        .getProcAddress "wmcaFree", .getProcAddress "wmcaSetServer",
                        .getProcAddress "wmcaSetPort", .getProcAddress "wmcaIsConnected",
                        .getProcAddress "wmcaConnect", .getProcAddress "wmcaDisconnect"] }
    if !(c.m_pLoad && c.m_pFree && c.m_pSetServer && c.m_pSetPort &&
         c.m_pIsConnected && c.m_pConnect && c.m_pDisconnect) then
      (false, { w with client := { w.client with m_hDll := false },
                       trace := w.trace ++ [.freeLibrary] })
    else
      (true, w)

/-- Method `WMCAClient::Load`: null check on `m_pLoad`, then the `wmcaLoad`
vendor call, whose result is returned. -/
def Load (v : Vendor) (w : World) : Bool × World :=
  if !w.client.m_pLoad then
    (false, w)
  else
    (v.retLoad, { w with trace := w.trace ++ [.wmcaLoad] })

/-- Method `WMCAClient::SetServer`. -/
def SetServer (v : Vendor) (szServer : String) (w : World) : Bool × World :=
  if !w.client.m_pSetServer then
    (false, w)
  else
    (v.retSetServer, { w with trace := w.trace ++ [.wmcaSetServer szServer] })

/-- Method `WMCAClient::SetPort`. -/
def SetPort (v : Vendor) (nPort : Int) (w : World) : Bool × World :=
  if !w.client.m_pSetPort then
    (false, w)
  else
    (v.retSetPort, { w with trace := w.trace ++ [.wmcaSetPort nPort] })

/-- Method `WMCAClient::IsConnected`: returns `false` without a vendor call when
the pointer is null, else the `wmcaIsConnected` result. -/
def IsConnected (v : Vendor) (w : World) : Bool × World :=
  if !w.client.m_pIsConnected then
    (false, w)
  else
    (v.retIsConnected, { w with trace := w.trace ++ [.wmcaIsConnected] })

/-- Method `WMCAClient::Connect`: null check, then `wmcaConnect(NULL, 0,
szMediaType[0], szUserType[0], szID, szPassword, szCertPW)`; on a
successful vendor call `m_bConnected` is set to `true`, otherwise the
flag is left unchanged. -/
def Connect (v : Vendor) (szID szPassword szCertPW : String)
    (szMediaType : String := "0") (szUserType : String := "1")
    (w : World) : Bool × World :=
  if !w.client.m_pConnect then
    (false, w)
  else
    let w := { w with trace := w.trace ++
      [.wmcaConnect szMediaType.front szUserType.front szID szPassword szCertPW] }
    if v.retConnect then
      (true, { w with client := { w.client with m_bConnected := true } })
    else
      (false, w)

/-- Method `WMCAClient::Disconnect`: null check, then the `wmcaDisconnect`
vendor call; on success `m_bConnected` is reset, otherwise the flag is
left unchanged. -/
def Disconnect (v : Vendor) (w : World) : Bool × World :=
  if !w.client.m_pDisconnect then
    (false, w)
  else
    let r := v.retDisconnect w.nDisc
    let w := { w with nDisc := w.nDisc + 1, trace := w.trace ++ [.wmcaDisconnect] }
    if r then
      (true, { w with client := { w.client with m_bConnected := false } })
    else
      (false, w)

/-- Method `WMCAClient::Free`: null check, then the `wmcaFree` vendor call,
whose result is returned (only the printed message depends on it). -/
def Free (v : Vendor) (w : World) : Bool × World :=
  if !w.client.m_pFree then
    (false, w)
  else
    (v.retFree w.nFree,
     { w with nFree := w.nFree + 1, trace := w.trace ++ [.wmcaFree] })

/-- Method `WMCAClient::Cleanup`: disconnect if still connected, call `Free`,
and `FreeLibrary` the handle (nulling it) if it is non-null.  This is
also the body of the destructor. -/
def Cleanup (v : Vendor) (w : World) : World :=
  let w := if w.client.m_bConnected then (Disconnect v w).2 else w
  let w := (Free v w).2
  if w.client.m_hDll then
    { w with client := { w.client with m_hDll := false },
             trace := w.trace ++ [.freeLibrary] }
  else
    w

end WMCAClient

/-- Function `GetInput`: prints the prompt and reads a line; when the line is
empty and a default was supplied, the default is returned, otherwise the
entered line. -/
def GetInput (szPrompt : String) (szDefault : Option String) (line : String)
    (tr : List VEvent) : String × List VEvent :=
  (match szDefault with
   | some d => if line == "" then d else line
   | none => line,
   tr ++ [.prompt szPrompt])

/-- The two exceptions `std::stoi` can throw. -/
inductive StoiErr where
  | invalidArgument
  | outOfRange
deriving DecidableEq

/-- The whitespace characters skipped by `std::stoi` (via `strtol`). -/
def cIsSpace (c : Char) : Bool :=
  c = ' ' || c = '\t' || c = '\n' || c = '\x0b' || c = '\x0c' || c = '\r'

/-- Model of `std::stoi` in base 10 on a Windows 32-bit `int`: skip leading
whitespace, an optional sign, then a non-empty run of decimal digits;
`invalid_argument` when no digit follows, `out_of_range` when the value
does not fit in `int`. -/
def stoi (s : String) : Except StoiErr Int :=
  let cs := s.toList.dropWhile cIsSpace
  let signed : Int × List Char :=
    match cs with
    | '-' :: rest => (-1, rest)
    | '+' :: rest => (1, rest)
    | _ => (1, cs)
  let digits := signed.2.takeWhile Char.isDigit
  if digits.isEmpty then
    .error .invalidArgument
  else
    let n : Nat := digits.foldl (fun a c => a * 10 + (c.toNat - 48)) 0
    let val : Int := signed.1 * (n : Int)
    if val < -2147483648 || 2147483647 < val then
      .error .outOfRange
    else
      .ok val

/-- Outcome of a run of `main`: a normal exit code, or abnormal
termination by the uncaught exception of the unguarded `stoi` call. -/
inductive ExitResult where
  | exit (code : Nat)
  | abort (e : StoiErr)
deriving DecidableEq

/-- The five lines typed on the console, one per `GetInput` call. -/
structure Inputs where
  serverLine : String
  portLine : String
  idLine : String
  pwLine : String
  certLine : String
deriving DecidableEq

open WMCAClient in
/-- Entry point `main`: the five prompts, the `stoi` of the port (which may throw),
the required-field check, then the client call sequence with an early
`return 1` on each failed step; on every `return` after the client is
constructed its destructor runs `Cleanup`. -/
def runMain (v : Vendor) (inp : Inputs) : ExitResult × List VEvent :=
  let tr : List VEvent := []
  let (server, tr) := GetInput "서버 주소" (some "127.0.0.1") inp.serverLine tr
  let (portStr, tr) := GetInput "포트 번호" (some "9000") inp.portLine tr
  match stoi portStr with
  | .error e => (.abort e, tr)
  | .ok port =>
    let (userID, tr) := GetInput "사용자 ID" none inp.idLine tr
    let (password, tr) := GetInput "비밀번호" none inp.pwLine tr
    let (certPassword, tr) := GetInput "인증서 비밀번호" none inp.certLine tr
    if userID == "" || password == "" || certPassword == "" then
      (.exit 1, tr)
    else
      let w : World := ⟨WMCAClient.init, 0, 0, tr⟩
      let (ok, w) := LoadDLL v "wmca.dll" w
      if !ok then (.exit 1, (Cleanup v w).trace) else
      let (ok, w) := Load v w
      if !ok then (.exit 1, (Cleanup v w).trace) else
      let (ok, w) := SetServer v server w
      if !ok then
        let w := (Free v w).2
        (.exit 1, (Cleanup v w).trace)
      else
      let (ok, w) := SetPort v port w
      if !ok then
        let w := (Free v w).2
        (.exit 1, (Cleanup v w).trace)
      else
      let (ok, w) := Connect v userID password certPassword "0" "1" w
      if !ok then
        let w := (Free v w).2
        (.exit 1, (Cleanup v w).trace)
      else
      let (_, w) := IsConnected v w
      let w := { w with trace := w.trace ++ [.sleep 5000] }
      let (_, w) := Disconnect v w
      let w := Cleanup v w
      (.exit 0, (Cleanup v w).trace)

/-! ## Derived predicates and concrete instances -/

/-- All seven `GetProcAddress` lookups succeed. -/
def allSyms (v : Vendor) : Bool :=
  v.symLoad && v.symFree && v.symSetServer && v.symSetPort &&
  v.symIsConnected && v.symConnect && v.symDisconnect

/-- All seven function pointers of the client are non-null. -/
def allPtrs (c : WMCAClient) : Bool :=
  c.m_pLoad && c.m_pFree && c.m_pSetServer && c.m_pSetPort &&
  c.m_pIsConnected && c.m_pConnect && c.m_pDisconnect

/-- The three required fields (user ID, password, certificate password)
are all non-empty. -/
def requiredPresent (inp : Inputs) : Bool :=
  !(inp.idLine == "" || inp.pwLine == "" || inp.certLine == "")

/-- The vendor calls of the five guarded steps all succeed. -/
def vendorStepsOk (v : Vendor) : Bool :=
  v.retLoad && v.retSetServer && v.retSetPort && v.retConnect

/-- The run reaches the success tail (connect succeeded). -/
def mainSucceeds (v : Vendor) (inp : Inputs) : Bool :=
  requiredPresent inp && v.libLoads && allSyms v && vendorStepsOk v

def isPromptEv : VEvent → Bool
  | .prompt _ => true
  | _ => false

def isLoadLibraryEv : VEvent → Bool
  | .loadLibrary _ => true
  | _ => false

def isFreeLibraryEv : VEvent → Bool
  | .freeLibrary => true
  | _ => false

def isSleepEv : VEvent → Bool
  | .sleep _ => true
  | _ => false

def isDisconnectEv : VEvent → Bool
  | .wmcaDisconnect => true
  | _ => false

/-- Calls into one of the seven vendor entry points. -/
def isVendorEv : VEvent → Bool
  | .wmcaLoad => true
  | .wmcaFree => true
  | .wmcaSetServer _ => true
  | .wmcaSetPort _ => true
  | .wmcaIsConnected => true
  | .wmcaConnect _ _ _ _ _ => true
  | .wmcaDisconnect => true
  | _ => false

/-- Number of events of a given kind in a trace. -/
def countEv (p : VEvent → Bool) (tr : List VEvent) : Nat :=
  (tr.filter p).length

/-- A vendor for which every load, resolution and call succeeds. -/
def vOK : Vendor :=
  { libLoads := true, symLoad := true, symFree := true, symSetServer := true,
    symSetPort := true, symIsConnected := true, symConnect := true,
    symDisconnect := true, retLoad := true, retSetServer := true,
    retSetPort := true, retIsConnected := true, retConnect := true,
    retDisconnect := fun _ => true, retFree := fun _ => true }

/-- Console input taking the server and port defaults and supplying the
three required fields. -/
def inpOK : Inputs := ⟨"", "", "user1", "pw1", "cert1"⟩

/-! ## Named trace pieces and one lemma per execution path of `main` -/

/-- The value `main` stores in `server`. -/
def serverOf (inp : Inputs) : String :=
  if inp.serverLine == "" then "127.0.0.1" else inp.serverLine

/-- The string `main` passes to `stoi`. -/
def portStrOf (inp : Inputs) : String :=
  if inp.portLine == "" then "9000" else inp.portLine

/-- The five console prompts, in order. -/
def promptsTrace : List VEvent :=
  [.prompt "서버 주소", .prompt "포트 번호", .prompt "사용자 ID",
   .prompt "비밀번호", .prompt "인증서 비밀번호"]

/-- The library load followed by the seven symbol resolutions. -/
def dllTrace : List VEvent :=
  [.loadLibrary "wmca.dll", .getProcAddress "wmcaLoad", .getProcAddress "wmcaFree",
   .getProcAddress "wmcaSetServer", .getProcAddress "wmcaSetPort",
   .getProcAddress "wmcaIsConnected", .getProcAddress "wmcaConnect",
   .getProcAddress "wmcaDisconnect"]

/-- Tail of the success-path trace after the first `wmcaDisconnect`,
depending on the results of the (up to three) disconnect attempts. -/
def discTail (v : Vendor) : List VEvent :=
  if v.retDisconnect 0 then [.wmcaFree, .freeLibrary, .wmcaFree]
  else if v.retDisconnect 1 then [.wmcaDisconnect, .wmcaFree, .freeLibrary, .wmcaFree]
  else [.wmcaDisconnect, .wmcaFree, .freeLibrary, .wmcaDisconnect, .wmcaFree]

lemma runMain_abort (v : Vendor) (inp : Inputs) (e : StoiErr)
    (hp : stoi (portStrOf inp) = .error e) :
    runMain v inp = (.abort e, [.prompt "서버 주소", .prompt "포트 번호"]) := by
  simp only [runMain, GetInput, portStrOf] at *
  rw [hp]
  rfl

lemma requiredPresent_eq_false {inp : Inputs} (h : requiredPresent inp = false) :
    (inp.idLine == "" || inp.pwLine == "" || inp.certLine == "") = true := by
  cases hx : (inp.idLine == "" || inp.pwLine == "" || inp.certLine == "") <;>
    simp [requiredPresent, hx] at h ⊢

lemma requiredPresent_eq_true {inp : Inputs} (h : requiredPresent inp = true) :
    (inp.idLine == "" || inp.pwLine == "" || inp.certLine == "") = false := by
  cases hx : (inp.idLine == "" || inp.pwLine == "" || inp.certLine == "") <;>
    simp [requiredPresent, hx] at h ⊢

lemma runMain_missingRequired (v : Vendor) (inp : Inputs) (p : Int)
    (hp : stoi (portStrOf inp) = .ok p) (hreq : requiredPresent inp = false) :
    runMain v inp = (.exit 1, promptsTrace) := by
  have h1 := requiredPresent_eq_false hreq
  simp only [runMain, GetInput, portStrOf] at *
  rw [hp]
  simp only [h1]
  simp [promptsTrace]

lemma runMain_noLib (v : Vendor) (inp : Inputs) (p : Int)
    (hp : stoi (portStrOf inp) = .ok p) (hreq : requiredPresent inp = true)
    (hl : v.libLoads = false) :
    runMain v inp = (.exit 1, promptsTrace ++ [.loadLibrary "wmca.dll"]) := by
  have h1 := requiredPresent_eq_true hreq
  simp only [runMain, GetInput, portStrOf] at *
  rw [hp]
  simp only [h1]
  simp [hl, promptsTrace, WMCAClient.LoadDLL, WMCAClient.Cleanup,
    WMCAClient.Free, WMCAClient.Disconnect, WMCAClient.init]

lemma allSyms_split {v : Vendor} (h : allSyms v = true) :
    v.symLoad = true ∧ v.symFree = true ∧ v.symSetServer = true ∧
    v.symSetPort = true ∧ v.symIsConnected = true ∧ v.symConnect = true ∧
    v.symDisconnect = true := by
  simpa [allSyms, Bool.and_eq_true, and_assoc] using h

lemma runMain_noSyms (v : Vendor) (inp : Inputs) (p : Int)
    (hp : stoi (portStrOf inp) = .ok p) (hreq : requiredPresent inp = true)
    (hl : v.libLoads = true) (hs : allSyms v = false) :
    runMain v inp = (.exit 1, promptsTrace ++ dllTrace ++ [.freeLibrary] ++
      (if v.symFree then [.wmcaFree] else [])) := by
  have h1 := requiredPresent_eq_true hreq
  have hs' : (v.symLoad && v.symFree && v.symSetServer && v.symSetPort &&
      v.symIsConnected && v.symConnect && v.symDisconnect) = false := by
    rwa [allSyms] at hs
  simp only [runMain, GetInput, portStrOf] at *
  rw [hp]
  simp only [h1]
  simp [hl, hs', WMCAClient.LoadDLL, WMCAClient.Cleanup, WMCAClient.Free,
    WMCAClient.Disconnect, WMCAClient.init, promptsTrace, dllTrace]
  cases hf : v.symFree <;> simp [hf]

lemma runMain_loadFail (v : Vendor) (inp : Inputs) (p : Int)
    (hp : stoi (portStrOf inp) = .ok p) (hreq : requiredPresent inp = true)
    (hl : v.libLoads = true) (hs : allSyms v = true) (hr : v.retLoad = false) :
    runMain v inp = (.exit 1, promptsTrace ++ dllTrace ++
      [.wmcaLoad, .wmcaFree, .freeLibrary]) := by
  have h1 := requiredPresent_eq_true hreq
  obtain ⟨s1, s2, s3, s4, s5, s6, s7⟩ := allSyms_split hs
  simp only [runMain, GetInput, portStrOf] at *
  rw [hp]
  simp only [h1]
  simp [hl, hr, s1, s2, s3, s4, s5, s6, s7, WMCAClient.LoadDLL, WMCAClient.Load,
    WMCAClient.Cleanup, WMCAClient.Free, WMCAClient.Disconnect, WMCAClient.init,
    promptsTrace, dllTrace]

lemma runMain_setServerFail (v : Vendor) (inp : Inputs) (p : Int)
    (hp : stoi (portStrOf inp) = .ok p) (hreq : requiredPresent inp = true)
    (hl : v.libLoads = true) (hs : allSyms v = true) (h2 : v.retLoad = true)
    (hr : v.retSetServer = false) :
    runMain v inp = (.exit 1, promptsTrace ++ dllTrace ++
      [.wmcaLoad, .wmcaSetServer (serverOf inp), .wmcaFree, .wmcaFree, .freeLibrary]) := by
  have h1 := requiredPresent_eq_true hreq
  obtain ⟨s1, s2, s3, s4, s5, s6, s7⟩ := allSyms_split hs
  simp only [runMain, GetInput, portStrOf, serverOf] at *
  rw [hp]
  simp only [h1]
  simp [hl, h2, hr, s1, s2, s3, s4, s5, s6, s7, WMCAClient.LoadDLL, WMCAClient.Load,
    WMCAClient.SetServer, WMCAClient.Cleanup, WMCAClient.Free, WMCAClient.Disconnect,
    WMCAClient.init, promptsTrace, dllTrace]

lemma runMain_setPortFail (v : Vendor) (inp : Inputs) (p : Int)
    (hp : stoi (portStrOf inp) = .ok p) (hreq : requiredPresent inp = true)
    (hl : v.libLoads = true) (hs : allSyms v = true) (h2 : v.retLoad = true)
    (h3 : v.retSetServer = true) (hr : v.retSetPort = false) :
    runMain v inp = (.exit 1, promptsTrace ++ dllTrace ++
      [.wmcaLoad, .wmcaSetServer (serverOf inp), .wmcaSetPort p,
       .wmcaFree, .wmcaFree, .freeLibrary]) := by
  have h1 := requiredPresent_eq_true hreq
  obtain ⟨s1, s2, s3, s4, s5, s6, s7⟩ := allSyms_split hs
  simp only [runMain, GetInput, portStrOf, serverOf] at *
  rw [hp]
  simp only [h1]
  simp [hl, h2, h3, hr, s1, s2, s3, s4, s5, s6, s7, WMCAClient.LoadDLL,
    WMCAClient.Load, WMCAClient.SetServer, WMCAClient.SetPort, WMCAClient.Cleanup,
    WMCAClient.Free, WMCAClient.Disconnect, WMCAClient.init, promptsTrace, dllTrace]

lemma front_zero : "0".front = '0' := rfl

lemma front_one : "1".front = '1' := rfl

lemma runMain_connectFail (v : Vendor) (inp : Inputs) (p : Int)
    (hp : stoi (portStrOf inp) = .ok p) (hreq : requiredPresent inp = true)
    (hl : v.libLoads = true) (hs : allSyms v = true) (h2 : v.retLoad = true)
    (h3 : v.retSetServer = true) (h4 : v.retSetPort = true)
    (hr : v.retConnect = false) :
    runMain v inp = (.exit 1, promptsTrace ++ dllTrace ++
      [.wmcaLoad, .wmcaSetServer (serverOf inp), .wmcaSetPort p,
       .wmcaConnect '0' '1' inp.idLine inp.pwLine inp.certLine,
       .wmcaFree, .wmcaFree, .freeLibrary]) := by
  have h1 := requiredPresent_eq_true hreq
  obtain ⟨s1, s2, s3, s4, s5, s6, s7⟩ := allSyms_split hs
  simp only [runMain, GetInput, portStrOf, serverOf] at *
  rw [hp]
  simp only [h1]
  simp [hl, h2, h3, h4, hr, s1, s2, s3, s4, s5, s6, s7, front_zero, front_one,
    WMCAClient.LoadDLL, WMCAClient.Load, WMCAClient.SetServer, WMCAClient.SetPort,
    WMCAClient.Connect, WMCAClient.Cleanup, WMCAClient.Free, WMCAClient.Disconnect,
    WMCAClient.init, promptsTrace, dllTrace]

lemma runMain_success (v : Vendor) (inp : Inputs) (p : Int)
    (hp : stoi (portStrOf inp) = .ok p) (hreq : requiredPresent inp = true)
    (hl : v.libLoads = true) (hs : allSyms v = true) (h2 : v.retLoad = true)
    (h3 : v.retSetServer = true) (h4 : v.retSetPort = true)
    (h5 : v.retConnect = true) :
    runMain v inp = (.exit 0, promptsTrace ++ dllTrace ++
      [.wmcaLoad, .wmcaSetServer (serverOf inp), .wmcaSetPort p,
       .wmcaConnect '0' '1' inp.idLine inp.pwLine inp.certLine,
       .wmcaIsConnected, .sleep 5000, .wmcaDisconnect] ++ discTail v) := by
  have h1 := requiredPresent_eq_true hreq
  obtain ⟨s1, s2, s3, s4, s5, s6, s7⟩ := allSyms_split hs
  simp only [runMain, GetInput, portStrOf, serverOf] at *
  rw [hp]
  simp only [h1]
  cases hd0 : v.retDisconnect 0 <;> cases hd1 : v.retDisconnect 1 <;>
    cases hd2 : v.retDisconnect 2 <;>
    simp [hl, h2, h3, h4, h5, hd0, hd1, hd2, s1, s2, s3, s4, s5, s6, s7,
      front_zero, front_one, WMCAClient.LoadDLL, WMCAClient.Load,
      WMCAClient.SetServer, WMCAClient.SetPort, WMCAClient.Connect,
      WMCAClient.IsConnected, WMCAClient.Cleanup, WMCAClient.Free,
      WMCAClient.Disconnect, WMCAClient.init, promptsTrace, dllTrace, discTail]

/-- Closed form of `runMain`, read off from the path lemmas: result and
trace of the run for every vendor oracle and console input. -/
def mainModel (v : Vendor) (inp : Inputs) : ExitResult × List VEvent :=
  match stoi (portStrOf inp) with
  | .error e => (.abort e, [.prompt "서버 주소", .prompt "포트 번호"])
  | .ok p =>
    if !requiredPresent inp then
      (.exit 1, promptsTrace)
    else if !v.libLoads then
      (.exit 1, promptsTrace ++ [.loadLibrary "wmca.dll"])
    else if !allSyms v then
      (.exit 1, promptsTrace ++ dllTrace ++ [.freeLibrary] ++
        (if v.symFree then [.wmcaFree] else []))
    else if !v.retLoad then
      (.exit 1, promptsTrace ++ dllTrace ++ [.wmcaLoad, .wmcaFree, .freeLibrary])
    else if !v.retSetServer then
      (.exit 1, promptsTrace ++ dllTrace ++
        [.wmcaLoad, .wmcaSetServer (serverOf inp), .wmcaFree, .wmcaFree, .freeLibrary])
    else if !v.retSetPort then
      (.exit 1, promptsTrace ++ dllTrace ++
        [.wmcaLoad, .wmcaSetServer (serverOf inp), .wmcaSetPort p,
         .wmcaFree, .wmcaFree, .freeLibrary])
    else if !v.retConnect then
      (.exit 1, promptsTrace ++ dllTrace ++
        [.wmcaLoad, .wmcaSetServer (serverOf inp), .wmcaSetPort p,
         .wmcaConnect '0' '1' inp.idLine inp.pwLine inp.certLine,
         .wmcaFree, .wmcaFree, .freeLibrary])
    else
      (.exit 0, promptsTrace ++ dllTrace ++
        [.wmcaLoad, .wmcaSetServer (serverOf inp), .wmcaSetPort p,
         .wmcaConnect '0' '1' inp.idLine inp.pwLine inp.certLine,
         .wmcaIsConnected, .sleep 5000, .wmcaDisconnect] ++ discTail v)

lemma runMain_eq_mainModel (v : Vendor) (inp : Inputs) :
    runMain v inp = mainModel v inp := by
  rcases hstoi : stoi (portStrOf inp) with e | p
  · rw [runMain_abort v inp e hstoi, mainModel, hstoi]
  · cases hreq : requiredPresent inp
    · rw [runMain_missingRequired v inp p hstoi hreq, mainModel, hstoi]
      simp [hreq]
    · cases hl : v.libLoads
      · rw [runMain_noLib v inp p hstoi hreq hl, mainModel, hstoi]
        simp [hreq, hl]
      · cases hs : allSyms v
        · rw [runMain_noSyms v inp p hstoi hreq hl hs, mainModel, hstoi]
          simp [hreq, hl, hs]
        · cases h2 : v.retLoad
          · rw [runMain_loadFail v inp p hstoi hreq hl hs h2, mainModel, hstoi]
            simp [hreq, hl, hs, h2]
          · cases h3 : v.retSetServer
            · rw [runMain_setServerFail v inp p hstoi hreq hl hs h2 h3, mainModel, hstoi]
              simp [hreq, hl, hs, h2, h3]
            · cases h4 : v.retSetPort
              · rw [runMain_setPortFail v inp p hstoi hreq hl hs h2 h3 h4,
                  mainModel, hstoi]
                simp [hreq, hl, hs, h2, h3, h4]
              · cases h5 : v.retConnect
                · rw [runMain_connectFail v inp p hstoi hreq hl hs h2 h3 h4 h5,
                    mainModel, hstoi]
                  simp [hreq, hl, hs, h2, h3, h4, h5]
                · rw [runMain_success v inp p hstoi hreq hl hs h2 h3 h4 h5,
                    mainModel, hstoi]
                  simp [hreq, hl, hs, h2, h3, h4, h5]

/-! ## Claims -/

/-- A vendor whose `wmcaDisconnect` always fails while everything else
succeeds. -/
def vNoDisc : Vendor := { vOK with retDisconnect := fun _ => false }

/-- A vendor for which `wmca.dll` loads and `wmcaFree` resolves, but
`wmcaLoad` does not resolve. -/
def vNoSymLoad : Vendor := { vOK with symLoad := false }

/-- A vendor for which `LoadLibraryA "wmca.dll"` fails. -/
def vNoLib : Vendor := { vOK with libLoads := false }

/-- Console input whose port line is not a number. -/
def inpAbc : Inputs := { inpOK with portLine := "abc" }

/-- Claim C1, counterexample: a run in which every step up to the login
succeeds but the disconnect step fails still exits with code 0, so the
exit code is not 1 "for any failed step, including ... disconnect". -/
theorem exitCode_claim_counterexample :
    vNoDisc.retDisconnect 0 = false ∧
    VEvent.wmcaDisconnect ∈ (runMain vNoDisc inpOK).2 ∧
    (runMain vNoDisc inpOK).1 = .exit 0 := by
  decide

/-- Claim C1, amended: the program aborts when the port does not parse;
otherwise it exits 0 exactly when the required fields are present and
`LoadDLL` (library load and all seven symbols), `wmcaLoad`,
`wmcaSetServer`, `wmcaSetPort` and `wmcaConnect` all succeed, and exits 1
otherwise.  The results of the connection check, the disconnect and the
module release never affect the exit code. -/
theorem exitCode_characterization (v : Vendor) (inp : Inputs) :
    (runMain v inp).1 =
      (match stoi (portStrOf inp) with
       | .error e => .abort e
       | .ok _ => .exit (if mainSucceeds v inp then 0 else 1)) := by
  rw [runMain_eq_mainModel]
  unfold mainModel mainSucceeds vendorStepsOk
  rcases hstoi : stoi (portStrOf inp) with e | p
  · simp
  · cases hreq : requiredPresent inp <;> cases hl : v.libLoads <;>
      cases hs : allSyms v <;> cases h2 : v.retLoad <;> cases h3 : v.retSetServer <;>
      cases h4 : v.retSetPort <;> cases h5 : v.retConnect <;>
      simp [hreq, hl, hs, h2, h3, h4, h5]

/-- Claim C2 (code bug): on a fully successful run the vendor entry
points are called in the expected order up to `FreeLibrary`, but the
`WMCAClient` destructor then runs `Cleanup` a second time and invokes
`wmcaFree` again — after the library has already been unloaded — because
`Cleanup` nulls the handle but not the function pointers.  The trace of
the fully successful concrete run exhibits the second, trailing
`wmcaFree`. -/
theorem success_path_trace_bug :
    (runMain vOK inpOK).1 = .exit 0 ∧
    (runMain vOK inpOK).2 =
      [.prompt "서버 주소", .prompt "포트 번호", .prompt "사용자 ID",
       .prompt "비밀번호", .prompt "인증서 비밀번호",
       .loadLibrary "wmca.dll", .getProcAddress "wmcaLoad",
       .getProcAddress "wmcaFree", .getProcAddress "wmcaSetServer",
       .getProcAddress "wmcaSetPort", .getProcAddress "wmcaIsConnected",
       .getProcAddress "wmcaConnect", .getProcAddress "wmcaDisconnect",
       .wmcaLoad, .wmcaSetServer "127.0.0.1", .wmcaSetPort 9000,
       .wmcaConnect '0' '1' "user1" "pw1" "cert1", .wmcaIsConnected,
       .sleep 5000, .wmcaDisconnect, .wmcaFree, .freeLibrary, .wmcaFree] := by
  decide

/-- Claim C3 (code bug): when the library loads but a symbol (here
`wmcaLoad`) is missing, `LoadDLL` frees the library and `main` returns 1,
as claimed — but the destructor's `Cleanup` still calls the
already-assigned `m_pFree` pointer, so the vendor entry point `wmcaFree`
is invoked, after `FreeLibrary`, contradicting "without invoking any
vendor entry point". -/
theorem missing_symbol_trace_bug :
    (runMain vNoSymLoad inpOK).1 = .exit 1 ∧
    (runMain vNoSymLoad inpOK).2 =
      [.prompt "서버 주소", .prompt "포트 번호", .prompt "사용자 ID",
       .prompt "비밀번호", .prompt "인증서 비밀번호",
       .loadLibrary "wmca.dll", .getProcAddress "wmcaLoad",
       .getProcAddress "wmcaFree", .getProcAddress "wmcaSetServer",
       .getProcAddress "wmcaSetPort", .getProcAddress "wmcaIsConnected",
       .getProcAddress "wmcaConnect", .getProcAddress "wmcaDisconnect",
       .freeLibrary, .wmcaFree] := by
  decide

def isGetProcEv : VEvent → Bool
  | .getProcAddress _ => true
  | _ => false

/-- Claim C4: when `LoadLibraryA` fails the program fails fast — with
valid console input the run exits with code 1, its trace is exactly the
five prompts followed by the single load attempt at the fixed path
"wmca.dll", and it contains no symbol resolution and no vendor call. -/
theorem absent_library_fails_fast (v : Vendor) (inp : Inputs) (p : Int)
    (hp : stoi (portStrOf inp) = .ok p) (hreq : requiredPresent inp = true)
    (hl : v.libLoads = false) :
    (runMain v inp).1 = .exit 1 ∧
    (runMain v inp).2 = promptsTrace ++ [.loadLibrary "wmca.dll"] ∧
    countEv isGetProcEv (runMain v inp).2 = 0 ∧
    countEv isVendorEv (runMain v inp).2 = 0 := by
  rw [runMain_noLib v inp p hp hreq hl]
  refine ⟨rfl, rfl, ?_, ?_⟩ <;>
    simp [countEv, promptsTrace, isGetProcEv, isVendorEv]

/-- Witness for claim C4 at a concrete vendor and concrete input. -/
theorem absent_library_fails_fast_witness :
    stoi (portStrOf inpOK) = .ok 9000 ∧ requiredPresent inpOK = true ∧
    vNoLib.libLoads = false ∧
    ((runMain vNoLib inpOK).1 = .exit 1 ∧
     (runMain vNoLib inpOK).2 = promptsTrace ++ [.loadLibrary "wmca.dll"] ∧
     countEv isGetProcEv (runMain vNoLib inpOK).2 = 0 ∧
     countEv isVendorEv (runMain vNoLib inpOK).2 = 0) :=
  ⟨rfl, rfl, rfl, absent_library_fails_fast vNoLib inpOK 9000 rfl rfl rfl⟩

lemma countEv_append (p : VEvent → Bool) (l1 l2 : List VEvent) :
    countEv p (l1 ++ l2) = countEv p l1 + countEv p l2 := by
  simp [countEv]

lemma discTail_filter_freeLib (v : Vendor) :
    (discTail v).filter isFreeLibraryEv = [VEvent.freeLibrary] := by
  unfold discTail
  split_ifs <;> rfl

lemma discTail_filter_loadLib (v : Vendor) :
    (discTail v).filter isLoadLibraryEv = [] := by
  unfold discTail
  split_ifs <;> rfl

lemma discTail_filter_sleep (v : Vendor) :
    (discTail v).filter isSleepEv = [] := by
  unfold discTail
  split_ifs <;> rfl

lemma discTail_filter_prompt (v : Vendor) :
    (discTail v).filter isPromptEv = [] := by
  unfold discTail
  split_ifs <;> rfl

set_option maxHeartbeats 1600000 in
/-- Claim C5: `FreeLibrary` is called exactly once on every execution
path on which the library load was reached and succeeded, and never
otherwise — no double free, no leak. -/
theorem freeLibrary_exactly_once (v : Vendor) (inp : Inputs) :
    countEv isFreeLibraryEv (runMain v inp).2 =
      if v.libLoads = true ∧ countEv isLoadLibraryEv (runMain v inp).2 ≠ 0 then 1
      else 0 := by
  rw [runMain_eq_mainModel]
  unfold mainModel
  rcases hstoi : stoi (portStrOf inp) with e | p
  · cases hl : v.libLoads <;>
      simp [hl, countEv, isFreeLibraryEv, isLoadLibraryEv]
  · cases hreq : requiredPresent inp <;> cases hl : v.libLoads <;>
      cases hs : allSyms v <;> cases h2 : v.retLoad <;> cases h3 : v.retSetServer <;>
      cases h4 : v.retSetPort <;> cases h5 : v.retConnect <;>
      cases hf : v.symFree <;>
      simp [hreq, hl, hs, h2, h3, h4, h5, hf, countEv,
        discTail_filter_freeLib, discTail_filter_loadLib, isFreeLibraryEv,
        isLoadLibraryEv, promptsTrace, dllTrace]

set_option maxHeartbeats 1600000 in
/-- Claim C6: `GetInput` substitutes the default exactly when the entered
line is empty and a default exists, returns the entered line otherwise,
and every run that passes the port parse prompts for exactly the five
input fields, in order. -/
theorem getInput_defaults_and_five_prompts :
    (∀ szPrompt d line tr,
      (GetInput szPrompt (some d) line tr).1 = if line == "" then d else line) ∧
    (∀ szPrompt line tr, (GetInput szPrompt none line tr).1 = line) ∧
    (∀ (v : Vendor) (inp : Inputs) (p : Int), stoi (portStrOf inp) = .ok p →
      ((runMain v inp).2).filter isPromptEv = promptsTrace) := by
  refine ⟨fun szPrompt d line tr => rfl, fun szPrompt line tr => rfl, ?_⟩
  intro v inp p hp
  rw [runMain_eq_mainModel]
  unfold mainModel
  rw [hp]
  cases hreq : requiredPresent inp <;> cases hl : v.libLoads <;>
    cases hs : allSyms v <;> cases h2 : v.retLoad <;> cases h3 : v.retSetServer <;>
    cases h4 : v.retSetPort <;> cases h5 : v.retConnect <;>
    cases hf : v.symFree <;>
    simp [hreq, hl, hs, h2, h3, h4, h5, hf, discTail_filter_prompt,
      isPromptEv, promptsTrace, dllTrace]

/-- Witness for claim C6 on a concrete successful run. -/
theorem getInput_defaults_witness :
    stoi (portStrOf inpOK) = .ok 9000 ∧
    (runMain vOK inpOK).2.filter isPromptEv = promptsTrace :=
  ⟨rfl, getInput_defaults_and_five_prompts.2.2 vOK inpOK 9000 rfl⟩

lemma mainSucceeds_split {v : Vendor} {inp : Inputs}
    (h : mainSucceeds v inp = true) :
    requiredPresent inp = true ∧ v.libLoads = true ∧ allSyms v = true ∧
    v.retLoad = true ∧ v.retSetServer = true ∧ v.retSetPort = true ∧
    v.retConnect = true := by
  simpa [mainSucceeds, vendorStepsOk, Bool.and_eq_true, and_assoc] using h

set_option maxHeartbeats 1600000 in
lemma countEv_sleep_runMain (v : Vendor) (inp : Inputs) :
    countEv isSleepEv (runMain v inp).2 =
      (match stoi (portStrOf inp) with
       | .error _ => 0
       | .ok _ => if mainSucceeds v inp then 1 else 0) := by
  rw [runMain_eq_mainModel]
  unfold mainModel mainSucceeds vendorStepsOk
  rcases hstoi : stoi (portStrOf inp) with e | p
  · simp [countEv, isSleepEv]
  · cases hreq : requiredPresent inp <;> cases hl : v.libLoads <;>
      cases hs : allSyms v <;> cases h2 : v.retLoad <;> cases h3 : v.retSetServer <;>
      cases h4 : v.retSetPort <;> cases h5 : v.retConnect <;>
      cases hf : v.symFree <;>
      simp [hreq, hl, hs, h2, h3, h4, h5, hf, countEv, discTail_filter_sleep,
        isSleepEv, promptsTrace, dllTrace]

/-- Claim C7: every run contains at most one `Sleep`; a run that does not
reach the success tail contains none; and on the success tail the trace
contains exactly one `Sleep(5000)`, placed between the `wmcaIsConnected`
check and the first `wmcaDisconnect`, with no waiting in the remaining
tail. -/
theorem single_sleep_on_success_path (v : Vendor) (inp : Inputs) :
    countEv isSleepEv (runMain v inp).2 ≤ 1 ∧
    countEv isSleepEv (discTail v) = 0 ∧
    (mainSucceeds v inp = false → countEv isSleepEv (runMain v inp).2 = 0) ∧
    (∀ p : Int, stoi (portStrOf inp) = .ok p → mainSucceeds v inp = true →
      (runMain v inp).2 = promptsTrace ++ dllTrace ++
        [.wmcaLoad, .wmcaSetServer (serverOf inp), .wmcaSetPort p,
         .wmcaConnect '0' '1' inp.idLine inp.pwLine inp.certLine,
         .wmcaIsConnected, .sleep 5000, .wmcaDisconnect] ++ discTail v) := by
  refine ⟨?_, ?_, ?_, ?_⟩
  · rw [countEv_sleep_runMain]
    rcases stoi (portStrOf inp) with e | p
    · exact Nat.zero_le 1
    · dsimp only
      split <;> simp
  · simp [countEv, discTail_filter_sleep]
  · intro h
    rw [countEv_sleep_runMain]
    rcases stoi (portStrOf inp) with e | p <;> simp [h]
  · intro p hp hsucc
    obtain ⟨hreq, hl, hs, h2, h3, h4, h5⟩ := mainSucceeds_split hsucc
    rw [runMain_success v inp p hp hreq hl hs h2 h3 h4 h5]

/-- Witness for claim C7 on a concrete successful run. -/
theorem single_sleep_witness :
    stoi (portStrOf inpOK) = .ok 9000 ∧ mainSucceeds vOK inpOK = true ∧
    (runMain vOK inpOK).2 = promptsTrace ++ dllTrace ++
      [.wmcaLoad, .wmcaSetServer (serverOf inpOK), .wmcaSetPort 9000,
       .wmcaConnect '0' '1' inpOK.idLine inpOK.pwLine inpOK.certLine,
       .wmcaIsConnected, .sleep 5000, .wmcaDisconnect] ++ discTail vOK :=
  ⟨rfl, rfl, (single_sleep_on_success_path vOK inpOK).2.2.2 9000 rfl rfl⟩

/-- The world `main` constructs just before calling `LoadDLL`. -/
def wInit : World := ⟨WMCAClient.init, 0, 0, []⟩

set_option maxHeartbeats 1600000 in
/-- Claim C8: a `LoadDLL` that returned `true` leaves all seven function
pointers non-null; no other method ever changes them; and whenever a
wrapper's pointer is non-null the wrapper takes the vendor-call branch
(returning the vendor result and recording the call), so the null-pointer
error branches are unreachable after a successful `LoadDLL`. -/
theorem pointers_nonnull_after_loadDLL (v : Vendor) :
    (∀ (path : String) (w : World), (WMCAClient.LoadDLL v path w).1 = true →
      allPtrs ((WMCAClient.LoadDLL v path w).2).client = true) ∧
    ((∀ w : World,
        allPtrs ((WMCAClient.Load v w).2).client = allPtrs w.client) ∧
     (∀ (s : String) (w : World),
        allPtrs ((WMCAClient.SetServer v s w).2).client = allPtrs w.client) ∧
     (∀ (n : Int) (w : World),
        allPtrs ((WMCAClient.SetPort v n w).2).client = allPtrs w.client) ∧
     (∀ w : World,
        allPtrs ((WMCAClient.IsConnected v w).2).client = allPtrs w.client) ∧
     (∀ (a b c d e : String) (w : World),
        allPtrs ((WMCAClient.Connect v a b c d e w).2).client = allPtrs w.client) ∧
     (∀ w : World,
        allPtrs ((WMCAClient.Disconnect v w).2).client = allPtrs w.client) ∧
     (∀ w : World,
        allPtrs ((WMCAClient.Free v w).2).client = allPtrs w.client) ∧
     (∀ w : World,
        allPtrs (WMCAClient.Cleanup v w).client = allPtrs w.client)) ∧
    ((∀ w : World, w.client.m_pLoad = true →
        (WMCAClient.Load v w).1 = v.retLoad ∧
        ((WMCAClient.Load v w).2).trace = w.trace ++ [.wmcaLoad]) ∧
     (∀ (s : String) (w : World), w.client.m_pSetServer = true →
        (WMCAClient.SetServer v s w).1 = v.retSetServer ∧
        ((WMCAClient.SetServer v s w).2).trace = w.trace ++ [.wmcaSetServer s]) ∧
     (∀ (n : Int) (w : World), w.client.m_pSetPort = true →
        (WMCAClient.SetPort v n w).1 = v.retSetPort ∧
        ((WMCAClient.SetPort v n w).2).trace = w.trace ++ [.wmcaSetPort n]) ∧
     (∀ w : World, w.client.m_pIsConnected = true →
        (WMCAClient.IsConnected v w).1 = v.retIsConnected ∧
        ((WMCAClient.IsConnected v w).2).trace = w.trace ++ [.wmcaIsConnected]) ∧
     (∀ (a b c : String) (w : World), w.client.m_pConnect = true →
        (WMCAClient.Connect v a b c "0" "1" w).1 = v.retConnect ∧
        ((WMCAClient.Connect v a b c "0" "1" w).2).trace =
          w.trace ++ [.wmcaConnect '0' '1' a b c]) ∧
     (∀ w : World, w.client.m_pDisconnect = true →
        (WMCAClient.Disconnect v w).1 = v.retDisconnect w.nDisc ∧
        ((WMCAClient.Disconnect v w).2).trace = w.trace ++ [.wmcaDisconnect]) ∧
     (∀ w : World, w.client.m_pFree = true →
        (WMCAClient.Free v w).1 = v.retFree w.nFree ∧
        ((WMCAClient.Free v w).2).trace = w.trace ++ [.wmcaFree])) := by
  refine ⟨?_, ⟨?_, ?_, ?_, ?_, ?_, ?_, ?_, ?_⟩, ⟨?_, ?_, ?_, ?_, ?_, ?_, ?_⟩⟩
  · intro path w h
    unfold WMCAClient.LoadDLL at h ⊢
    cases hl : v.libLoads <;>
      cases hc : (v.symLoad && v.symFree && v.symSetServer && v.symSetPort &&
        v.symIsConnected && v.symConnect && v.symDisconnect) <;>
      simp_all [allPtrs, Bool.and_eq_true]
  · intro w
    unfold WMCAClient.Load
    cases h : w.client.m_pLoad <;> simp [allPtrs]
  · intro s w
    unfold WMCAClient.SetServer
    cases h : w.client.m_pSetServer <;> simp [allPtrs]
  · intro n w
    unfold WMCAClient.SetPort
    cases h : w.client.m_pSetPort <;> simp [allPtrs]
  · intro w
    unfold WMCAClient.IsConnected
    cases h : w.client.m_pIsConnected <;> simp [allPtrs]
  · intro a b c d e w
    unfold WMCAClient.Connect
    cases h : w.client.m_pConnect <;> cases hr : v.retConnect <;> simp [allPtrs]
  · intro w
    unfold WMCAClient.Disconnect
    cases h : w.client.m_pDisconnect <;> cases hr : v.retDisconnect w.nDisc <;>
      simp [hr, allPtrs]
  · intro w
    unfold WMCAClient.Free
    cases h : w.client.m_pFree <;> simp [allPtrs]
  · intro w
    unfold WMCAClient.Cleanup WMCAClient.Disconnect WMCAClient.Free
    cases h1 : w.client.m_bConnected <;> cases h2 : w.client.m_pDisconnect <;>
      cases h3 : v.retDisconnect w.nDisc <;> cases h4 : w.client.m_pFree <;>
      cases h5 : w.client.m_hDll <;> simp_all [allPtrs]
  · intro w h
    unfold WMCAClient.Load
    simp [h]
  · intro s w h
    unfold WMCAClient.SetServer
    simp [h]
  · intro n w h
    unfold WMCAClient.SetPort
    simp [h]
  · intro w h
    unfold WMCAClient.IsConnected
    simp [h]
  · intro a b c w h
    unfold WMCAClient.Connect
    cases hr : v.retConnect <;> simp [h, hr, front_zero, front_one]
  · intro w h
    unfold WMCAClient.Disconnect
    cases hr : v.retDisconnect w.nDisc <;> simp [h, hr]
  · intro w h
    unfold WMCAClient.Free
    simp [h]

/-- Witness for claim C8: after a concrete successful `LoadDLL` all seven
pointers are non-null. -/
theorem pointers_nonnull_witness :
    (WMCAClient.LoadDLL vOK "wmca.dll" wInit).1 = true ∧
    allPtrs ((WMCAClient.LoadDLL vOK "wmca.dll" wInit).2).client = true :=
  ⟨rfl, (pointers_nonnull_after_loadDLL vOK).1 "wmca.dll" wInit rfl⟩

/-- Claim C9: a non-empty, non-numeric port line ("abc") makes the
unguarded `stoi` call throw `std::invalid_argument`, so the run
terminates abnormally instead of exiting with any code. -/
theorem invalid_port_aborts (v : Vendor) (inp : Inputs)
    (h : inp.portLine = "abc") :
    stoi inp.portLine = .error .invalidArgument ∧
    (runMain v inp).1 = .abort .invalidArgument ∧
    ∀ c : Nat, (runMain v inp).1 ≠ .exit c := by
  have hstoi : stoi (portStrOf inp) = .error .invalidArgument := by
    simp only [portStrOf, h]
    rfl
  refine ⟨by rw [h]; rfl, ?_, ?_⟩
  · rw [runMain_abort v inp .invalidArgument hstoi]
  · intro c
    rw [runMain_abort v inp .invalidArgument hstoi]
    simp

/-- Witness for claim C9 at the concrete input "abc". -/
theorem invalid_port_aborts_witness :
    inpAbc.portLine = "abc" ∧
    (stoi inpAbc.portLine = .error .invalidArgument ∧
     (runMain vOK inpAbc).1 = .abort .invalidArgument ∧
     ∀ c : Nat, (runMain vOK inpAbc).1 ≠ .exit c) :=
  ⟨rfl, invalid_port_aborts vOK inpAbc rfl⟩

/-- Claim C10: `m_bConnected` starts `false`, becomes `true` exactly
through a `Connect` whose vendor call succeeds, becomes `false` again
exactly through a `Disconnect` whose vendor call succeeds (both leave it
unchanged on failure), no other method touches it, and `Cleanup` attempts
a disconnect (records a `wmcaDisconnect` call) precisely when the flag is
set and the pointer is non-null. -/
theorem connected_flag_lifecycle (v : Vendor) :
    WMCAClient.init.m_bConnected = false ∧
    (∀ (a b c d e : String) (w : World),
      ((WMCAClient.Connect v a b c d e w).2).client.m_bConnected =
        (if w.client.m_pConnect && v.retConnect then true
         else w.client.m_bConnected)) ∧
    (∀ w : World,
      ((WMCAClient.Disconnect v w).2).client.m_bConnected =
        (if w.client.m_pDisconnect && v.retDisconnect w.nDisc then false
         else w.client.m_bConnected)) ∧
    (∀ w : World,
      countEv isDisconnectEv (WMCAClient.Cleanup v w).trace =
        countEv isDisconnectEv w.trace +
          (if w.client.m_bConnected && w.client.m_pDisconnect then 1 else 0)) ∧
    (∀ w : World,
      ((WMCAClient.Load v w).2).client.m_bConnected = w.client.m_bConnected) ∧
    (∀ (s : String) (w : World),
      ((WMCAClient.SetServer v s w).2).client.m_bConnected =
        w.client.m_bConnected) ∧
    (∀ (n : Int) (w : World),
      ((WMCAClient.SetPort v n w).2).client.m_bConnected =
        w.client.m_bConnected) ∧
    (∀ w : World,
      ((WMCAClient.IsConnected v w).2).client.m_bConnected =
        w.client.m_bConnected) ∧
    (∀ w : World,
      ((WMCAClient.Free v w).2).client.m_bConnected = w.client.m_bConnected) ∧
    (∀ (path : String) (w : World),
      ((WMCAClient.LoadDLL v path w).2).client.m_bConnected =
        w.client.m_bConnected) := by
  refine ⟨rfl, ?_, ?_, ?_, ?_, ?_, ?_, ?_, ?_, ?_⟩
  · intro a b c d e w
    unfold WMCAClient.Connect
    cases h : w.client.m_pConnect <;> cases hr : v.retConnect <;> simp [hr]
  · intro w
    unfold WMCAClient.Disconnect
    cases h : w.client.m_pDisconnect <;> cases hr : v.retDisconnect w.nDisc <;>
      simp [hr]
  · intro w
    unfold WMCAClient.Cleanup WMCAClient.Disconnect WMCAClient.Free
    cases h1 : w.client.m_bConnected <;> cases h2 : w.client.m_pDisconnect <;>
      cases h3 : v.retDisconnect w.nDisc <;> cases h4 : w.client.m_pFree <;>
      cases h5 : w.client.m_hDll <;>
      simp_all [countEv, isDisconnectEv]
  · intro w
    unfold WMCAClient.Load
    cases h : w.client.m_pLoad <;> simp
  · intro s w
    unfold WMCAClient.SetServer
    cases h : w.client.m_pSetServer <;> simp
  · intro n w
    unfold WMCAClient.SetPort
    cases h : w.client.m_pSetPort <;> simp
  · intro w
    unfold WMCAClient.IsConnected
    cases h : w.client.m_pIsConnected <;> simp
  · intro w
    unfold WMCAClient.Free
    cases h : w.client.m_pFree <;> simp
  · intro path w
    simp only [WMCAClient.LoadDLL]
    split
    · rfl
    · split <;> rfl
